import Mathlib

/-!
Shallow embedding of the acer-wmi-ext driver (acer-wmi-ext.c).

External effects are passed in as explicit parameters:
a WMI evaluation result is a `WmiResp` (ACPI failure, a NULL object
pointer, or an ACPI object); an embedded-controller write is an oracle
`ecw : Int → Int` returning the kernel error code (negative on failure);
an embedded-controller read is a pair `(err, byte)`; string parsing
(kstrtoint, kstrtobool, sscanf) is passed as its result.
Each store/probe function returns a record holding the C return value,
the new value of the global state it mutates, and a trace of the
firmware calls or EC register writes it performed.
-/

namespace AcerWmiExt

/-- Result object of a wmi_evaluate_method call, as seen by the decoding
code: an ACPI failure status, a NULL result pointer, or an acpi_object
that is a raw byte buffer, an integer, or some other type. -/
inductive AcpiObj where
  | buffer (bytes : List Nat)
  | integer (v : Nat)
  | other
deriving DecidableEq

inductive WmiResp where
  | failure
  | null
  | obj (o : AcpiObj)
deriving DecidableEq

/-- Little-endian value of a byte list, as read by casting the buffer
pointer to a fixed-width integer pointer. -/
def leVal : List Nat → Nat
  | [] => 0
  | b :: bs => b % 256 + 256 * leVal bs

/-- Embeds acer_wmi_apgeaction_exec_u64 (lines 106 to 136): on ACPI failure
the status is returned (modelled as `none`); otherwise tmp starts at 0, is
filled from a 4-byte or 8-byte buffer or from an integer object, and is
stored through the out pointer with a success status (`some tmp`). -/
def acer_wmi_apgeaction_exec_u64 (resp : WmiResp) : Option Nat :=
  match resp with
  | .failure => none
  | .null => some 0
  | .obj (.buffer bs) =>
    if bs.length = 4 then some (leVal bs)
    else if bs.length = 8 then some (leVal bs)
    else some 0
  | .obj (.integer v) => some v
  | .obj .other => some 0

/-- Cached battery state (struct battery_info): s8 tri-states. -/
structure BatteryInfo where
  health_mode : Int
  calibration_mode : Int
deriving DecidableEq

/-- Embeds get_battery_health_control_status (lines 187 to 243): a failed
WMI call or a non-buffer object is an error; a buffer whose length is not 8
is an error; otherwise byte 0 is uFunctionList and bytes 3 and 4 are
uFunctionStatus[0] and uFunctionStatus[1] (bytes 1 and 2 are uReturn), and
the tri-states are derived with HEALTH_MODE = 1 and CALIBRATION_MODE = 2. -/
def get_battery_health_control_status (resp : WmiResp) : Except Unit BatteryInfo :=
  match resp with
  | .failure => .error ()
  | .null => .error ()
  | .obj (.integer _) => .error ()
  | .obj .other => .error ()
  | .obj (.buffer bs) =>
    if bs.length ≠ 8 then .error ()
    else
      let uFunctionList := bs.getD 0 0
      let status0 := bs.getD 3 0
      let status1 := bs.getD 4 0
      .ok ⟨if uFunctionList &&& 1 ≠ 0 then (if 0 < status0 then 1 else 0) else -1,
           if uFunctionList &&& 2 ≠ 0 then (if 0 < status1 then 1 else 0) else -1⟩

/-- Embeds the response handling of set_battery_health_control (lines 245
to 291): a failed WMI call or a non-buffer object is an error; a buffer
whose length is not 4 turns the status into an error; otherwise success. -/
def set_battery_health_control (resp : WmiResp) : Except Unit Unit :=
  match resp with
  | .failure => .error ()
  | .null => .error ()
  | .obj (.buffer bs) => if bs.length ≠ 4 then .error () else .ok ()
  | .obj (.integer _) => .error ()
  | .obj .other => .error ()

/-- Embeds update_state (lines 326 to 337): re-queries the battery status;
the return value is ignored, and on failure battery_status is untouched. -/
def update_state (resp : WmiResp) (bat : BatteryInfo) : BatteryInfo :=
  match get_battery_health_control_status resp with
  | .ok newBat => newBat
  | .error _ => bat

/-- Outcome of a battery-mode sysfs store: the ssize_t return value, the
new battery_status, the set calls issued as (function mask, status) pairs,
and whether update_state ran. -/
structure BatStoreOut where
  ret : Int
  bat : BatteryInfo
  setCalls : List (Nat × Bool)
  refreshed : Bool
deriving DecidableEq

/-- Embeds health_mode_store (lines 348 to 364): returns 0 when the cached
health_mode is negative; a parse error is returned as is; otherwise the
Namespace-A set call is issued with mask HEALTH_MODE = 1 (its result is
discarded), update_state runs, and count is returned. -/
def health_mode_store (bat : BatteryInfo) (parse : Except Int Bool)
    (setResp refreshResp : WmiResp) (count : Nat) : BatStoreOut :=
  if bat.health_mode < 0 then ⟨0, bat, [], false⟩
  else
    match parse with
    | .error e => ⟨e, bat, [], false⟩
    | .ok v =>
      let _ := set_battery_health_control setResp
      ⟨(count : Int), update_state refreshResp bat, [(1, v)], true⟩

/-- Embeds calibration_mode_store (lines 375 to 392): same shape as
health_mode_store with mask CALIBRATION_MODE = 2 and the calibration
tri-state as the guard. -/
def calibration_mode_store (bat : BatteryInfo) (parse : Except Int Bool)
    (setResp refreshResp : WmiResp) (count : Nat) : BatStoreOut :=
  if bat.calibration_mode < 0 then ⟨0, bat, [], false⟩
  else
    match parse with
    | .error e => ⟨e, bat, [], false⟩
    | .ok v =>
      let _ := set_battery_health_control setResp
      ⟨(count : Int), update_state refreshResp bat, [(2, v)], true⟩

/-- Outcome of an operation on the system-control-mode state: the return
value, the new control_mode cache, and the values written to the EC
register at offset 0x45. -/
structure ScmOut where
  ret : Int
  control_mode : Int
  ecWrites : List Int
deriving DecidableEq

/-- Embeds system_control_mode_store (lines 403 to 434): returns 0 when the
cached control_mode is negative; a kstrtoint error is returned; a value
outside SYSTEM_CONTROL_BALANCED = 1 .. SYSTEM_CONTROL_PERFORMANCE = 3 is
rejected with -EINVAL; otherwise ec_write is performed unconditionally, a
negative write result is returned with the cache untouched, and on success
the cache is set and count returned. -/
def system_control_mode_store (control_mode : Int) (parse : Except Int Int)
    (ecw : Int → Int) (count : Nat) : ScmOut :=
  if control_mode < 0 then ⟨0, control_mode, []⟩
  else
    match parse with
    | .error e => ⟨e, control_mode, []⟩
    | .ok v =>
      if v < 1 ∨ 3 < v then ⟨-22, control_mode, []⟩
      else
        let e := ecw v
        if e < 0 then ⟨e, control_mode, [v]⟩
        else ⟨(count : Int), v, [v]⟩

/-- Quirk entry (struct quirk_entry): two u8 flags. -/
structure QuirkEntry where
  system_control_mode : Nat
  usb_charge_mode : Nat
deriving DecidableEq

/-- Embeds init_usb_charge_mode (lines 437 to 471): skipped (cache kept)
when the quirk is off, the GUID is absent, or the Namespace-B get fails;
otherwise the probed value is classified: 663296 means off, 659200 or
1314560 or 1969920 mean enabled, anything else is unknown (-1). -/
def init_usb_charge_mode (q : QuirkEntry) (hasGuid : Bool) (resp : WmiResp)
    (usb_charge_mode_enable : Int) : Int :=
  if q.usb_charge_mode = 0 then usb_charge_mode_enable
  else if ¬ hasGuid then usb_charge_mode_enable
  else
    match acer_wmi_apgeaction_exec_u64 resp with
    | none => usb_charge_mode_enable
    | some result =>
      if result = 663296 then 0
      else if result = 659200 ∨ result = 1314560 ∨ result = 1969920 then 1
      else -1

/-- Outcome of usb_charge_mode_store: return value, new cache value, and
the Namespace-B operands sent. -/
structure UsbStoreOut where
  ret : Int
  usb_charge_mode_enable : Int
  fwCalls : List Nat
deriving DecidableEq

/-- Embeds usb_charge_mode_store (lines 478 to 517): -EOPNOTSUPP when the
quirk is off; -EINVAL on parse failure or a value other than 0 or 1; the
operand is 663300 for 0 and 1969924 for 1; the cache is assigned the
requested value BEFORE the firmware call; a failed call returns -ENODEV,
otherwise count. -/
def usb_charge_mode_store (q : QuirkEntry) (usb_charge_mode_enable : Int)
    (parse : Option Nat) (fw : Nat → WmiResp) (count : Nat) : UsbStoreOut :=
  if q.usb_charge_mode = 0 then ⟨-95, usb_charge_mode_enable, []⟩
  else
    match parse with
    | none => ⟨-22, usb_charge_mode_enable, []⟩
    | some val =>
      let operand : Option Nat :=
        if val = 0 then some 663300
        else if val = 1 then some 1969924
        else none
      match operand with
      | none => ⟨-22, usb_charge_mode_enable, []⟩
      | some iv =>
        match acer_wmi_apgeaction_exec_u64 (fw iv) with
        | none => ⟨-19, (val : Int), [iv]⟩
        | some _ => ⟨(count : Int), (val : Int), [iv]⟩

/-- Embeds usb_charge_limit_show (lines 519 to 554): -EOPNOTSUPP when the
quirk is off; -ENODEV when the Namespace-B get fails; otherwise the probed
value is mapped 659200 to 10, 1314560 to 20, 1969920 to 30, else -1. -/
def usb_charge_limit_show (q : QuirkEntry) (resp : WmiResp) : Int :=
  if q.usb_charge_mode = 0 then -95
  else
    match acer_wmi_apgeaction_exec_u64 resp with
    | none => -19
    | some result =>
      if result = 659200 then 10
      else if result = 1314560 then 20
      else if result = 1969920 then 30
      else -1

/-- Outcome of usb_charge_limit_store: return value and the Namespace-B
operands sent. -/
structure LimitStoreOut where
  ret : Int
  fwCalls : List Nat
deriving DecidableEq

/-- Embeds usb_charge_limit_store (lines 556 to 603): -EOPNOTSUPP when the
quirk is off; -EINVAL when usb_charge_mode_enable is cached as 0 (checked
before parsing); -EINVAL on parse failure or a value other than 10, 20, 30;
the operands are 659204, 1314564, 1969924; a failed Namespace-B set returns
-ENODEV, otherwise count. -/
def usb_charge_limit_store (q : QuirkEntry) (usb_charge_mode_enable : Int)
    (parse : Option Nat) (fw : Nat → WmiResp) (count : Nat) : LimitStoreOut :=
  if q.usb_charge_mode = 0 then ⟨-95, []⟩
  else if usb_charge_mode_enable = 0 then ⟨-22, []⟩
  else
    match parse with
    | none => ⟨-22, []⟩
    | some val =>
      let operand : Option Nat :=
        if val = 10 then some 659204
        else if val = 20 then some 1314564
        else if val = 30 then some 1969924
        else none
      match operand with
      | none => ⟨-22, []⟩
      | some iv =>
        match acer_wmi_apgeaction_exec_u64 (fw iv) with
        | none => ⟨-19, [iv]⟩
        | some _ => ⟨(count : Int), [iv]⟩

/-- State of the one-time system-control-mode initialization: the
system_control_mode_inited flag and the control_mode cache. -/
structure ScmState where
  inited : Bool
  control_mode : Int
deriving DecidableEq

/-- Outcome of acer_system_control_mode_init: return value, new state,
number of EC reads performed, and EC register writes performed. -/
structure InitOut where
  ret : Int
  state : ScmState
  ecReads : Nat
  ecWrites : List Int
deriving DecidableEq

/-- Embeds acer_system_control_mode_init (lines 628 to 669): the inited
flag is set FIRST, then ec_read is attempted (result modelled as the pair
(err, byte)); a negative read error is returned; otherwise control_mode is
set from the byte, and the enable_system_control_mode module parameter, if
non-negative, is range-checked and written to the EC. -/
def acer_system_control_mode_init (ecr : Int × Nat)
    (enable_system_control_mode : Int) (ecw : Int → Int)
    (s : ScmState) : InitOut :=
  let s1 : ScmState := { s with inited := true }
  if ecr.1 < 0 then ⟨ecr.1, s1, 1, []⟩
  else
    let s2 : ScmState := { s1 with control_mode := (ecr.2 : Int) }
    if 0 ≤ enable_system_control_mode then
      if enable_system_control_mode < 1 ∨ 3 < enable_system_control_mode then
        ⟨-22, s2, 1, []⟩
      else
        let e := ecw enable_system_control_mode
        if e < 0 then ⟨e, s2, 1, [enable_system_control_mode]⟩
        else ⟨0, { s2 with control_mode := enable_system_control_mode }, 1,
              [enable_system_control_mode]⟩
    else ⟨0, s2, 1, []⟩

/-- The three platform profile options the adapter handles, plus any other
member of the host enumeration. -/
inductive Profile where
  | low_power
  | balanced
  | performance
  | other
deriving DecidableEq

/-- Outcome of acer_platform_profile_probe: return value, new state, number
of EC reads performed, and the profile choices set. -/
structure ProbeOut where
  ret : Int
  state : ScmState
  ecReads : Nat
  choices : List Profile
deriving DecidableEq

/-- Embeds acer_platform_profile_probe (lines 677 to 700): -EOPNOTSUPP when
the quirk is off; runs the one-time initialization only when the inited
flag is clear, propagating its error; on success sets the three choice
bits. -/
def acer_platform_profile_probe (q : QuirkEntry) (ecr : Int × Nat)
    (enable_system_control_mode : Int) (ecw : Int → Int)
    (s : ScmState) : ProbeOut :=
  if q.system_control_mode = 0 then ⟨-95, s, 0, []⟩
  else if ¬ s.inited then
    let r := acer_system_control_mode_init ecr enable_system_control_mode ecw s
    if r.ret ≠ 0 then ⟨r.ret, r.state, r.ecReads, []⟩
    else ⟨0, r.state, r.ecReads, [.low_power, .balanced, .performance]⟩
  else ⟨0, s, 0, [.low_power, .balanced, .performance]⟩

/-- Embeds acer_platform_profile_get (lines 702 to 721): control_mode 1 is
balanced, 3 is performance, 2 is low-power, anything else -EOPNOTSUPP. -/
def acer_platform_profile_get (control_mode : Int) : Except Int Profile :=
  if control_mode = 1 then .ok .balanced
  else if control_mode = 3 then .ok .performance
  else if control_mode = 2 then .ok .low_power
  else .error (-95)

/-- The mode code computed by the switch in acer_platform_profile_set:
balanced is 1, performance is 3, low-power is 2, anything else is
unsupported. -/
def profileMode : Profile → Option Int
  | .balanced => some 1
  | .performance => some 3
  | .low_power => some 2
  | .other => none

/-- Embeds acer_platform_profile_set (lines 723 to 766): -EOPNOTSUPP when
the quirk is off or the profile is not one of the three handled options;
returns 0 with no EC write when the new mode equals the cached
control_mode; otherwise writes the EC register, returning a negative write
error with the cache untouched, or 0 with the cache updated. -/
def acer_platform_profile_set (q : QuirkEntry) (control_mode : Int)
    (ecw : Int → Int) (p : Profile) : ScmOut :=
  if q.system_control_mode = 0 then ⟨-95, control_mode, []⟩
  else
    match profileMode p with
    | none => ⟨-95, control_mode, []⟩
    | some new_mode =>
      if new_mode = control_mode then ⟨0, control_mode, []⟩
      else
        let e := ecw new_mode
        if e < 0 then ⟨e, control_mode, [new_mode]⟩
        else ⟨0, new_mode, [new_mode]⟩

/-- Outcome of the profile registration loop: return value, the number of
the last attempt made, and the msleep delays in order. -/
structure SetupOut where
  ret : Int
  attempts : Nat
  sleeps : List Nat
deriving DecidableEq

/-- Embeds the retry loop of acer_platform_profile_setup (lines 786 to
803): arguments are the current attempt number, the remaining attempts,
the current delay, and the accumulated sleeps; registration success stops
with 0; a failure on the last attempt returns its error; otherwise the
loop sleeps delay_ms and doubles the delay capped at 1000. -/
def register_attempts (stub : Nat → Except Int Unit) :
    Nat → Nat → Nat → List Nat → SetupOut
  | attempt, 0, _, sleeps => ⟨0, attempt, sleeps⟩
  | attempt, r + 1, delay, sleeps =>
    match stub attempt with
    | .ok () => ⟨0, attempt, sleeps⟩
    | .error e =>
      if r = 0 then ⟨e, attempt, sleeps⟩
      else register_attempts stub (attempt + 1) r (min (delay * 2) 1000)
            (sleeps ++ [delay])

/-- Embeds acer_platform_profile_setup (lines 775 to 806): returns 0
without any attempt when the quirk is off; otherwise runs the loop with
max_retries = 10 and an initial delay of 100 ms. -/
def acer_platform_profile_setup (q : QuirkEntry)
    (stub : Nat → Except Int Unit) : SetupOut :=
  if q.system_control_mode = 0 then ⟨0, 0, []⟩
  else register_attempts stub 1 10 100 []

/-- Claim C1, counterexample: with the cached control_mode equal to 1, a
sysfs store of the value 1 (the current mode) still performs an EC register
write of 1, although it returns success (count = 4); the claimed
no-register-write short-circuit does not hold on the sysfs entry path. -/
theorem c1_counterexample :
    system_control_mode_store 1 (Except.ok 1) (fun _ => 0) 4 =
      ⟨4, 1, [1]⟩ := by
  decide

/-- Claim C1, amended: the short-circuit holds only for the profile
adapter: its set returns success with no EC write when the requested
profile maps to the cached mode code; the sysfs store instead performs the
EC register write unconditionally for every valid requested mode,
including a mode equal to the cached one. -/
theorem c1_amended (q : QuirkEntry) (hq : q.system_control_mode ≠ 0)
    (cm : Int) (p : Profile) (ecw : Int → Int)
    (hp : profileMode p = some cm) (count : Nat) :
    acer_platform_profile_set q cm ecw p = ⟨0, cm, []⟩ ∧
    (system_control_mode_store cm (Except.ok cm) ecw count).ecWrites = [cm] := by
  have hcm1 : 1 ≤ cm := by
    cases p <;> simp [profileMode] at hp <;> omega
  have hcm3 : cm ≤ 3 := by
    cases p <;> simp [profileMode] at hp <;> omega
  constructor
  · simp [acer_platform_profile_set, hq, hp]
  · simp only [system_control_mode_store]
    rw [if_neg (by omega)]
    rw [if_neg (by omega)]
    by_cases h : ecw cm < 0 <;> simp [h]

/-- Claim C1, witness for the amended theorem at concrete inputs. -/
theorem c1_amended_witness :
    acer_platform_profile_set ⟨1, 0⟩ 1 (fun _ => 0) Profile.balanced =
      ⟨0, 1, []⟩ ∧
    (system_control_mode_store 1 (Except.ok 1) (fun _ => 0) 4).ecWrites = [1] :=
  c1_amended ⟨1, 0⟩ (by decide) 1 Profile.balanced (fun _ => 0) (by decide) 4

/-- Claim C2, counterexample: the usb-charge-mode store with cache 0 and a
requested value 1 surfaces -ENODEV when the firmware call fails, but the
cache has already been changed to 1 (not left unchanged); and the battery
health and calibration stores with a failing Namespace-A set call still
return count = 6 (success), not an error. -/
theorem c2_counterexample :
    usb_charge_mode_store ⟨1, 1⟩ 0 (some 1) (fun _ => WmiResp.failure) 5 =
      ⟨-19, 1, [1969924]⟩ ∧
    (health_mode_store ⟨1, 0⟩ (Except.ok false) WmiResp.failure
        WmiResp.failure 6).ret = 6 ∧
    (calibration_mode_store ⟨0, 1⟩ (Except.ok false) WmiResp.failure
        WmiResp.failure 6).ret = 6 := by
  decide

/-- Claim C2, amended: the system-control-mode store surfaces a failed EC
write and leaves the cache unchanged, and a failed or malformed battery
status query surfaces an error and leaves battery_status unchanged; but
the usb-charge-mode store assigns the cache the requested value before the
firmware call, so on a failed call the error is surfaced with the cache
already holding the requested value; and the battery health and
calibration stores discard the result of the Namespace-A set call,
returning success regardless. -/
theorem c2_amended :
    (∀ (cm v : Int) (ecw : Int → Int) (count : Nat),
      0 ≤ cm → 1 ≤ v → v ≤ 3 → ecw v < 0 →
      system_control_mode_store cm (Except.ok v) ecw count =
        ⟨ecw v, cm, [v]⟩) ∧
    (∀ bs : List Nat, bs.length ≠ 8 →
      get_battery_health_control_status (.obj (.buffer bs)) = .error () ∧
      ∀ bat, update_state (.obj (.buffer bs)) bat = bat) ∧
    (∀ bat, update_state .failure bat = bat) ∧
    (∀ q : QuirkEntry, q.usb_charge_mode ≠ 0 → ∀ (usb : Int) (count : Nat),
      usb_charge_mode_store q usb (some 1) (fun _ => .failure) count =
        ⟨-19, 1, [1969924]⟩) ∧
    (∀ (bat : BatteryInfo) (v : Bool) (refreshResp : WmiResp) (count : Nat),
      0 ≤ bat.health_mode →
      (health_mode_store bat (Except.ok v) .failure refreshResp count).ret =
        (count : Int)) ∧
    (∀ (bat : BatteryInfo) (v : Bool) (refreshResp : WmiResp) (count : Nat),
      0 ≤ bat.calibration_mode →
      (calibration_mode_store bat (Except.ok v) .failure refreshResp
          count).ret = (count : Int)) := by
  refine ⟨?_, ?_, ?_, ?_, ?_, ?_⟩
  · intro cm v ecw count hcm hv1 hv3 hw
    simp only [system_control_mode_store]
    rw [if_neg (by omega), if_neg (by omega), if_pos hw]
  · intro bs hbs
    constructor
    · simp [get_battery_health_control_status, hbs]
    · intro bat
      simp [update_state, get_battery_health_control_status, hbs]
  · intro bat
    simp [update_state, get_battery_health_control_status]
  · intro q hq usb count
    simp [usb_charge_mode_store, hq, acer_wmi_apgeaction_exec_u64]
  · intro bat v refreshResp count hb
    have h : ¬ bat.health_mode < 0 := by omega
    simp [health_mode_store, h]
  · intro bat v refreshResp count hb
    have h : ¬ bat.calibration_mode < 0 := by omega
    simp [calibration_mode_store, h]

/-- Claim C2, witness for the amended theorem at concrete inputs. -/
theorem c2_amended_witness :
    system_control_mode_store 2 (Except.ok 3) (fun _ => -5) 7 =
      ⟨(fun _ : Int => (-5 : Int)) 3, 2, [3]⟩ ∧
    (get_battery_health_control_status (.obj (.buffer [1, 2, 3])) =
        .error () ∧
      update_state (.obj (.buffer [1, 2, 3])) ⟨1, 0⟩ = ⟨1, 0⟩) ∧
    update_state .failure ⟨0, 1⟩ = ⟨0, 1⟩ ∧
    usb_charge_mode_store ⟨0, 1⟩ 0 (some 1) (fun _ => .failure) 5 =
      ⟨-19, 1, [1969924]⟩ ∧
    (health_mode_store ⟨0, 0⟩ (Except.ok true) .failure .failure 9).ret =
      9 ∧
    (calibration_mode_store ⟨0, 0⟩ (Except.ok true) .failure .failure
        9).ret = 9 :=
  ⟨c2_amended.1 2 3 (fun _ => -5) 7 (by decide) (by decide) (by decide)
      (by decide),
    ⟨(c2_amended.2.1 [1, 2, 3] (by decide)).1,
      (c2_amended.2.1 [1, 2, 3] (by decide)).2 ⟨1, 0⟩⟩,
    c2_amended.2.2.1 ⟨0, 1⟩,
    c2_amended.2.2.2.1 ⟨0, 1⟩ (by decide) 0 5,
    c2_amended.2.2.2.2.1 ⟨0, 0⟩ true .failure 9 (by decide),
    c2_amended.2.2.2.2.2 ⟨0, 0⟩ true .failure 9 (by decide)⟩

/-- Claim C3, counterexample: the Namespace-B call handed a 2-byte buffer
(length neither 4 nor 8) does not fail: it succeeds and produces the
decoded value 0, so the mismatch is silently tolerated there. -/
theorem c3_counterexample :
    acer_wmi_apgeaction_exec_u64 (.obj (.buffer [7, 7])) = some 0 := by
  decide

/-- Claim C3, amended: the two Namespace-A decoders do enforce their fixed
response lengths (8 for the query, 4 for the set acknowledgement), failing
with an error and producing no decoded value on any other length; the
Namespace-B 64-bit call, however, tolerates a buffer of any length other
than 4 or 8, returning success with the value 0. -/
theorem c3_amended :
    (∀ bs : List Nat, bs.length ≠ 8 →
      get_battery_health_control_status (.obj (.buffer bs)) = .error ()) ∧
    (∀ bs : List Nat, bs.length ≠ 4 →
      set_battery_health_control (.obj (.buffer bs)) = .error ()) ∧
    (∀ bs : List Nat, bs.length ≠ 4 → bs.length ≠ 8 →
      acer_wmi_apgeaction_exec_u64 (.obj (.buffer bs)) = some 0) := by
  refine ⟨?_, ?_, ?_⟩
  · intro bs hbs
    simp [get_battery_health_control_status, hbs]
  · intro bs hbs
    simp [set_battery_health_control, hbs]
  · intro bs h4 h8
    simp [acer_wmi_apgeaction_exec_u64, h4, h8]

/-- Claim C3, witness for the amended theorem at concrete inputs. -/
theorem c3_amended_witness :
    get_battery_health_control_status (.obj (.buffer [1, 2])) = .error () ∧
    set_battery_health_control (.obj (.buffer [1, 2, 3])) = .error () ∧
    acer_wmi_apgeaction_exec_u64 (.obj (.buffer [1, 2, 3])) = some 0 :=
  ⟨c3_amended.1 [1, 2] (by decide), c3_amended.2.1 [1, 2, 3] (by decide),
    c3_amended.2.2 [1, 2, 3] (by decide) (by decide)⟩

/-- Claim C4: the usb-charge-limit store fails with -EOPNOTSUPP and no
firmware call when the usb-charge quirk is off; with the quirk on and the
mode cached as 0 it rejects every limit in 10, 20, 30 with -EINVAL and no
firmware call; otherwise it accepts exactly 10, 20, 30, sending the
operands 659204, 1314564, 1969924 and returning count on a successful
call, and rejects every other parsed value with -EINVAL. -/
theorem c4 :
    (∀ q : QuirkEntry, q.usb_charge_mode = 0 →
      ∀ (usb : Int) (parse : Option Nat) (fw : Nat → WmiResp) (count : Nat),
      usb_charge_limit_store q usb parse fw count = ⟨-95, []⟩) ∧
    (∀ q : QuirkEntry, q.usb_charge_mode ≠ 0 →
      ∀ (fw : Nat → WmiResp) (count : Nat) (val : Nat),
      val ∈ ([10, 20, 30] : List Nat) →
      usb_charge_limit_store q 0 (some val) fw count = ⟨-22, []⟩) ∧
    (∀ q : QuirkEntry, q.usb_charge_mode ≠ 0 → ∀ usb : Int, usb ≠ 0 →
      ∀ (count : Nat) (r : Nat),
      usb_charge_limit_store q usb (some 10)
          (fun _ => .obj (.integer r)) count = ⟨(count : Int), [659204]⟩ ∧
      usb_charge_limit_store q usb (some 20)
          (fun _ => .obj (.integer r)) count = ⟨(count : Int), [1314564]⟩ ∧
      usb_charge_limit_store q usb (some 30)
          (fun _ => .obj (.integer r)) count = ⟨(count : Int), [1969924]⟩) ∧
    (∀ q : QuirkEntry, q.usb_charge_mode ≠ 0 → ∀ usb : Int, usb ≠ 0 →
      ∀ val : Nat, val ∉ ([10, 20, 30] : List Nat) →
      ∀ (fw : Nat → WmiResp) (count : Nat),
      usb_charge_limit_store q usb (some val) fw count = ⟨-22, []⟩) := by
  refine ⟨?_, ?_, ?_, ?_⟩
  · intro q hq usb parse fw count
    simp [usb_charge_limit_store, hq]
  · intro q hq fw count val hval
    simp [usb_charge_limit_store, hq]
  · intro q hq usb husb count r
    refine ⟨?_, ?_, ?_⟩ <;>
      simp [usb_charge_limit_store, hq, husb, acer_wmi_apgeaction_exec_u64]
  · intro q hq usb husb val hval fw count
    simp only [List.mem_cons, List.not_mem_nil, or_false, not_or] at hval
    obtain ⟨h10, h20, h30⟩ := hval
    simp [usb_charge_limit_store, hq, husb, h10, h20, h30]

/-- Claim C4, witness at concrete inputs for each conjunct. -/
theorem c4_witness :
    usb_charge_limit_store ⟨0, 0⟩ 1 (some 10) (fun _ => .failure) 3 =
      ⟨-95, []⟩ ∧
    usb_charge_limit_store ⟨0, 1⟩ 0 (some 20) (fun _ => .failure) 3 =
      ⟨-22, []⟩ ∧
    usb_charge_limit_store ⟨0, 1⟩ 1 (some 10)
      (fun _ => .obj (.integer 0)) 3 = ⟨3, [659204]⟩ ∧
    usb_charge_limit_store ⟨0, 1⟩ 1 (some 25) (fun _ => .failure) 3 =
      ⟨-22, []⟩ :=
  ⟨c4.1 ⟨0, 0⟩ (by decide) 1 (some 10) (fun _ => .failure) 3,
    c4.2.1 ⟨0, 1⟩ (by decide) (fun _ => .failure) 3 20 (by decide),
    (c4.2.2.1 ⟨0, 1⟩ (by decide) 1 (by decide) 3 0).1,
    c4.2.2.2 ⟨0, 1⟩ (by decide) 1 (by decide) 25 (by decide)
      (fun _ => .failure) 3⟩

/-- Claim C5: with the usb-charge quirk on and the GUID present, a probe
result of 659200 seeds usb_charge_mode_enable as 1; a limit read against
the same result shows 10; a subsequent mode store of 0 sends exactly the
operand 663300 via Namespace B, succeeds, and caches 0; and any probe
result outside 663296, 659200, 1314560, 1969920 seeds the cache as -1. -/
theorem c5 :
    (∀ q : QuirkEntry, q.usb_charge_mode ≠ 0 → ∀ usb : Int,
      init_usb_charge_mode q true (.obj (.integer 659200)) usb = 1) ∧
    (∀ q : QuirkEntry, q.usb_charge_mode ≠ 0 →
      usb_charge_limit_show q (.obj (.integer 659200)) = 10) ∧
    (∀ q : QuirkEntry, q.usb_charge_mode ≠ 0 → ∀ (count r : Nat),
      usb_charge_mode_store q 1 (some 0)
          (fun iv => if iv = 663300 then .obj (.integer r) else .failure)
          count = ⟨(count : Int), 0, [663300]⟩) ∧
    (∀ q : QuirkEntry, q.usb_charge_mode ≠ 0 → ∀ r : Nat,
      r ∉ ([663296, 659200, 1314560, 1969920] : List Nat) → ∀ usb : Int,
      init_usb_charge_mode q true (.obj (.integer r)) usb = -1) := by
  refine ⟨?_, ?_, ?_, ?_⟩
  · intro q hq usb
    simp [init_usb_charge_mode, hq, acer_wmi_apgeaction_exec_u64]
  · intro q hq
    simp [usb_charge_limit_show, hq, acer_wmi_apgeaction_exec_u64]
  · intro q hq count r
    simp [usb_charge_mode_store, hq, acer_wmi_apgeaction_exec_u64]
  · intro q hq r hr usb
    simp only [List.mem_cons, List.not_mem_nil, or_false, not_or] at hr
    obtain ⟨h1, h2, h3, h4⟩ := hr
    simp [init_usb_charge_mode, hq, acer_wmi_apgeaction_exec_u64,
      h1, h2, h3, h4]

/-- Claim C5, witness at concrete inputs for each conjunct. -/
theorem c5_witness :
    init_usb_charge_mode ⟨0, 1⟩ true (.obj (.integer 659200)) 0 = 1 ∧
    usb_charge_limit_show ⟨0, 1⟩ (.obj (.integer 659200)) = 10 ∧
    usb_charge_mode_store ⟨0, 1⟩ 1 (some 0)
      (fun iv => if iv = 663300 then .obj (.integer 2) else .failure) 4 =
      ⟨4, 0, [663300]⟩ ∧
    init_usb_charge_mode ⟨0, 1⟩ true (.obj (.integer 5)) 0 = -1 :=
  ⟨c5.1 ⟨0, 1⟩ (by decide) 0, c5.2.1 ⟨0, 1⟩ (by decide),
    c5.2.2.1 ⟨0, 1⟩ (by decide) 4 2,
    c5.2.2.2 ⟨0, 1⟩ (by decide) 5 (by decide) 0⟩

/-- Claim C6: decoding an 8-byte Namespace-A query response caches, for
each of the two battery modes, -1 exactly when the corresponding bit (bit
0 for health, bit 1 for calibration) is absent from the availability
bitmask in byte 0, and otherwise 1 or 0 according to whether the status
byte of that mode (byte 3 for health, byte 4 for calibration) is positive
or zero. -/
theorem c6 (fl r1 r2 s0 s1 s2 s3 s4 : Nat) :
    get_battery_health_control_status
        (.obj (.buffer [fl, r1, r2, s0, s1, s2, s3, s4])) =
      .ok ⟨if fl.testBit 0 then (if 0 < s0 then 1 else 0) else -1,
           if fl.testBit 1 then (if 0 < s1 then 1 else 0) else -1⟩ := by
  have h0 : fl &&& 1 = (fl.testBit 0).toNat := by
    have h := Nat.and_two_pow fl 0
    simpa using h
  have h1 : fl &&& 2 = (fl.testBit 1).toNat * 2 := by
    have h := Nat.and_two_pow fl 1
    simpa using h
  simp only [get_battery_health_control_status, List.length_cons,
    List.length_nil, List.getD, List.getI, h0, h1]
  cases hb0 : fl.testBit 0 <;> cases hb1 : fl.testBit 1 <;> simp
  all_goals
    rw [hb0] at h0
  all_goals
    rw [hb1] at h1
  all_goals
    rw [Nat.and_one_is_mod] at h0
  all_goals
    simp at h0 h1
  all_goals
    constructor <;> intro hc <;> omega

/-- Helper for the retry loop bound: starting at a given attempt number
with r + 1 attempts remaining, the loop never reports an attempt number
beyond attempt + r. -/
theorem register_attempts_attempts_le (stub : Nat → Except Int Unit) :
    ∀ (r attempt delay : Nat) (sleeps : List Nat),
      (register_attempts stub attempt (r + 1) delay sleeps).attempts ≤
        attempt + r := by
  intro r
  induction r with
  | zero =>
    intro attempt delay sleeps
    simp only [register_attempts]
    cases h : stub attempt <;> simp [h]
  | succ n ih =>
    intro attempt delay sleeps
    simp only [register_attempts]
    cases h : stub attempt with
    | ok _u => simp [h]
    | error e =>
      simp only [h]
      rw [if_neg (Nat.succ_ne_zero n)]
      have hrec := ih (attempt + 1) (min (delay * 2) 1000) (sleeps ++ [delay])
      simp only [register_attempts] at hrec
      omega

/-- Claim C7: with the quirk on, the registration loop makes at most 10
attempts for every stub; a stub failing the first 4 attempts and
succeeding on the 5th yields success after exactly 5 attempts with sleeps
100, 200, 400, 800; a stub failing every attempt yields the error of
attempt 10 after 10 attempts, with the doubling delays capped at 1000. -/
theorem c7 (q : QuirkEntry) (hq : q.system_control_mode ≠ 0) (e : Int)
    (errf : Nat → Int) (stub : Nat → Except Int Unit) :
    acer_platform_profile_setup q
        (fun n => if n ≤ 4 then Except.error e else Except.ok ()) =
      ⟨0, 5, [100, 200, 400, 800]⟩ ∧
    acer_platform_profile_setup q (fun n => Except.error (errf n)) =
      ⟨errf 10, 10, [100, 200, 400, 800, 1000, 1000, 1000, 1000, 1000]⟩ ∧
    (acer_platform_profile_setup q stub).attempts ≤ 10 := by
  refine ⟨?_, ?_, ?_⟩
  · simp only [acer_platform_profile_setup, if_neg hq]
    rfl
  · simp only [acer_platform_profile_setup, if_neg hq]
    rfl
  · simp only [acer_platform_profile_setup, if_neg hq]
    have h := register_attempts_attempts_le stub 9 1 100 []
    simpa using h

/-- Claim C7, witness at concrete inputs. -/
theorem c7_witness :
    acer_platform_profile_setup ⟨1, 0⟩
        (fun n => if n ≤ 4 then Except.error (-5) else Except.ok ()) =
      ⟨0, 5, [100, 200, 400, 800]⟩ ∧
    acer_platform_profile_setup ⟨1, 0⟩ (fun _ => Except.error ((-7 : Int))) =
      ⟨-7, 10, [100, 200, 400, 800, 1000, 1000, 1000, 1000, 1000]⟩ ∧
    (acer_platform_profile_setup ⟨1, 0⟩ (fun _ => Except.ok ())).attempts ≤
      10 :=
  c7 ⟨1, 0⟩ (by decide) (-5) (fun _ => -7) (fun _ => Except.ok ())

/-- Claim C8: a battery-health or calibration store with the corresponding
cached tri-state negative returns 0 (success), leaves the cache untouched
and issues no firmware call and no refresh; with a non-negative cache it
issues the Namespace-A set call with the mode bit (1 for health, 2 for
calibration) and the parsed boolean, runs the refresh, and returns
count. -/
theorem c8 :
    (∀ (bat : BatteryInfo) (parse : Except Int Bool)
        (setResp refreshResp : WmiResp) (count : Nat),
      bat.health_mode < 0 →
      health_mode_store bat parse setResp refreshResp count =
        ⟨0, bat, [], false⟩) ∧
    (∀ (bat : BatteryInfo) (v : Bool) (setResp refreshResp : WmiResp)
        (count : Nat),
      0 ≤ bat.health_mode →
      health_mode_store bat (Except.ok v) setResp refreshResp count =
        ⟨(count : Int), update_state refreshResp bat, [(1, v)], true⟩) ∧
    (∀ (bat : BatteryInfo) (parse : Except Int Bool)
        (setResp refreshResp : WmiResp) (count : Nat),
      bat.calibration_mode < 0 →
      calibration_mode_store bat parse setResp refreshResp count =
        ⟨0, bat, [], false⟩) ∧
    (∀ (bat : BatteryInfo) (v : Bool) (setResp refreshResp : WmiResp)
        (count : Nat),
      0 ≤ bat.calibration_mode →
      calibration_mode_store bat (Except.ok v) setResp refreshResp count =
        ⟨(count : Int), update_state refreshResp bat, [(2, v)], true⟩) := by
  refine ⟨?_, ?_, ?_, ?_⟩
  · intro bat parse setResp refreshResp count hb
    simp [health_mode_store, hb]
  · intro bat v setResp refreshResp count hb
    have h : ¬ bat.health_mode < 0 := by omega
    simp [health_mode_store, h]
  · intro bat parse setResp refreshResp count hb
    simp [calibration_mode_store, hb]
  · intro bat v setResp refreshResp count hb
    have h : ¬ bat.calibration_mode < 0 := by omega
    simp [calibration_mode_store, h]

/-- Claim C8, witness at concrete inputs for each conjunct. -/
theorem c8_witness :
    health_mode_store ⟨-1, 0⟩ (Except.ok true) .failure .failure 3 =
      ⟨0, ⟨-1, 0⟩, [], false⟩ ∧
    health_mode_store ⟨1, 0⟩ (Except.ok true) .failure .failure 3 =
      ⟨3, update_state .failure ⟨1, 0⟩, [(1, true)], true⟩ ∧
    calibration_mode_store ⟨0, -1⟩ (Except.ok false) .failure .failure 3 =
      ⟨0, ⟨0, -1⟩, [], false⟩ ∧
    calibration_mode_store ⟨0, 0⟩ (Except.ok false) .failure .failure 3 =
      ⟨3, update_state .failure ⟨0, 0⟩, [(2, false)], true⟩ :=
  ⟨c8.1 ⟨-1, 0⟩ (Except.ok true) .failure .failure 3 (by decide),
    c8.2.1 ⟨1, 0⟩ true .failure .failure 3 (by decide),
    c8.2.2.1 ⟨0, -1⟩ (Except.ok false) .failure .failure 3 (by decide),
    c8.2.2.2 ⟨0, 0⟩ false .failure .failure 3 (by decide)⟩

/-- Claim C9: the profile get maps the cached code 1 to balanced, 3 to
performance and 2 to low-power, and every other cached value to
-EOPNOTSUPP; and whenever a profile set returns 0, a following get on the
resulting cached mode returns exactly the profile that was set. -/
theorem c9 :
    acer_platform_profile_get 1 = .ok .balanced ∧
    acer_platform_profile_get 3 = .ok .performance ∧
    acer_platform_profile_get 2 = .ok .low_power ∧
    (∀ cm : Int, cm ∉ ([1, 2, 3] : List Int) →
      acer_platform_profile_get cm = .error (-95)) ∧
    (∀ (q : QuirkEntry) (cm : Int) (ecw : Int → Int) (p : Profile),
      (acer_platform_profile_set q cm ecw p).ret = 0 →
      acer_platform_profile_get
        (acer_platform_profile_set q cm ecw p).control_mode = .ok p) := by
  refine ⟨rfl, rfl, rfl, ?_, ?_⟩
  · intro cm hcm
    simp only [List.mem_cons, List.not_mem_nil, or_false, not_or] at hcm
    obtain ⟨h1, h2, h3⟩ := hcm
    simp [acer_platform_profile_get, h1, h2, h3]
  · intro q cm ecw p h
    by_cases hq : q.system_control_mode = 0
    · simp [acer_platform_profile_set, hq] at h
    · cases p
      · by_cases hc : (2 : Int) = cm
        · subst hc
          simp [acer_platform_profile_set, hq, profileMode,
            acer_platform_profile_get]
        · by_cases hw : ecw 2 < 0
          · simp [acer_platform_profile_set, hq, profileMode, hc, hw] at h
            omega
          · simp [acer_platform_profile_set, hq, profileMode, hc, hw,
              acer_platform_profile_get]
      · by_cases hc : (1 : Int) = cm
        · subst hc
          simp [acer_platform_profile_set, hq, profileMode,
            acer_platform_profile_get]
        · by_cases hw : ecw 1 < 0
          · simp [acer_platform_profile_set, hq, profileMode, hc, hw] at h
            omega
          · simp [acer_platform_profile_set, hq, profileMode, hc, hw,
              acer_platform_profile_get]
      · by_cases hc : (3 : Int) = cm
        · subst hc
          simp [acer_platform_profile_set, hq, profileMode,
            acer_platform_profile_get]
        · by_cases hw : ecw 3 < 0
          · simp [acer_platform_profile_set, hq, profileMode, hc, hw] at h
            omega
          · simp [acer_platform_profile_set, hq, profileMode, hc, hw,
              acer_platform_profile_get]
      · simp [acer_platform_profile_set, hq, profileMode] at h

/-- Claim C9, witness at concrete inputs for the quantified conjuncts. -/
theorem c9_witness :
    acer_platform_profile_get 7 = .error (-95) ∧
    acer_platform_profile_get
        (acer_platform_profile_set ⟨1, 0⟩ 1 (fun _ => 0)
          Profile.performance).control_mode = .ok Profile.performance :=
  ⟨c9.2.2.2.1 7 (by decide),
    c9.2.2.2.2 ⟨1, 0⟩ 1 (fun _ => 0) Profile.performance (by decide)⟩

/-- Claim C10: the one-time initialization raises the inited flag before
the EC read, so with an initial state of flag clear and cached mode -1, a
probe whose EC read fails returns that error with the flag set and the
cache still -1 and exactly one EC read; a second probe from that state
performs no EC read, succeeds and reports the three choices; and the
profile get on the still-unknown cached mode yields -EOPNOTSUPP. -/
theorem c10 (q : QuirkEntry) (hq : q.system_control_mode ≠ 0) (e : Int)
    (he : e < 0) (b : Nat) (enable : Int) (ecw : Int → Int)
    (ecr2 : Int × Nat) :
    acer_platform_profile_probe q (e, b) enable ecw ⟨false, -1⟩ =
      ⟨e, ⟨true, -1⟩, 1, []⟩ ∧
    acer_platform_profile_probe q ecr2 enable ecw ⟨true, -1⟩ =
      ⟨0, ⟨true, -1⟩, 0, [.low_power, .balanced, .performance]⟩ ∧
    acer_platform_profile_get (-1) = .error (-95) := by
  have h0 : e ≠ 0 := by omega
  refine ⟨?_, ?_, rfl⟩
  · simp [acer_platform_profile_probe, acer_system_control_mode_init, hq,
      he, h0]
  · simp [acer_platform_profile_probe, hq]

/-- Claim C10, witness at concrete inputs. -/
theorem c10_witness :
    acer_platform_profile_probe ⟨1, 0⟩ (-5, 0) (-1) (fun _ => 0)
        ⟨false, -1⟩ = ⟨-5, ⟨true, -1⟩, 1, []⟩ ∧
    acer_platform_profile_probe ⟨1, 0⟩ (0, 2) (-1) (fun _ => 0)
        ⟨true, -1⟩ =
      ⟨0, ⟨true, -1⟩, 0, [.low_power, .balanced, .performance]⟩ ∧
    acer_platform_profile_get (-1) = .error (-95) :=
  c10 ⟨1, 0⟩ (by decide) (-5) (by decide) 0 (-1) (fun _ => 0) (0, 2)

end AcerWmiExt
